import Mathlib

/-!
Shallow embedding of the pyMillLocal request/response layer
(`mill_local/__init__.py`): the `Mill` client, its address normalization,
its cached status snapshot with derived attributes, and the GET/POST
request handling built on the HTTP session.  JSON (de)serialization and
the HTTP transport itself are third-party components; they are modelled
by their documented observable behaviour: `response.json()` yields the
decoded value, yields Python `None` for an empty body or a literal JSON
null, and raises a decode error for a malformed body.
-/

namespace MillLocal

/-- JSON values as delivered by the device or sent as request payloads.
Numbers are modelled as rationals, objects as ordered association lists
(Python dicts keep insertion order). -/
inductive Json where
  | null
  | bool (b : Bool)
  | num (q : Rat)
  | str (s : String)
  | obj (fields : List (String × Json))

/-- Python `dict.get(key)`: the value under `key`, or `none` when the key
is absent.  Invoked only on mapping values in the source; on a
non-mapping value CPython would raise AttributeError, which no claim
exercises. -/
def Json.get? (j : Json) (key : String) : Option Json :=
  match j with
  | .obj fields => fields.lookup key
  | _ => none

/-- Python `dict.get(key, dflt)`. -/
def Json.getD (j : Json) (key : String) (dflt : Json) : Json :=
  (j.get? key).getD dflt

/-- Body of an HTTP response as seen by the JSON decoding step: either a
body that decodes to a JSON value, or a body that is not valid JSON. -/
inductive BodyContent where
  | json (v : Json)
  | malformed (raw : String)

/-- An HTTP response: status code, reason phrase, and body
(`none` = empty body). -/
structure HttpResponse where
  status : Nat
  reason : String
  body : Option BodyContent

/-- Behaviour of aiohttp `ClientResponse.json()`: an empty body gives
Python `None` (`Option.none` here), a body decoding to JSON null likewise
(`json.loads` maps it to `None`), any other valid body gives its decoded
value, and a malformed body raises a decode error. -/
def responseJson : Option BodyContent → Except Unit (Option Json)
  | none => .ok none
  | some (.json .null) => .ok none
  | some (.json (.bool b)) => .ok (some (.bool b))
  | some (.json (.num q)) => .ok (some (.num q))
  | some (.json (.str s)) => .ok (some (.str s))
  | some (.json (.obj fields)) => .ok (some (.obj fields))
  | some (.malformed _) => .error ()

/-- True when `response.json()` succeeds (no decode error) on this body. -/
def parseOk (b : Option BodyContent) : Bool :=
  match responseJson b with
  | .ok _ => true
  | .error _ => false

/-- The sentinel envelope the source substitutes when `response.json()`
returned `None`: the guard `if json_response is None: json_response =
\x7b"status": ""\x7d`. -/
def sentinelEnvelope : Json :=
  Json.obj [("status", Json.str "")]

/-- The `json_response` value after the `None` guard. -/
def jsonOrSentinel (parsed : Option Json) : Json :=
  parsed.getD sentinelEnvelope

/-- Errors a request can raise: a JSON decode failure from
`response.json()`, or the `aiohttp.ClientResponseError` from
`response.raise_for_status()` carrying the status code and reason. -/
inductive ReqError where
  | parseError
  | apiError (status : Nat) (reason : String)

/-- Discriminator: does this outcome raise the API error kind with the
given HTTP status code? -/
def raisesApiErrorWithStatus {α : Type} (o : Except ReqError α) (n : Nat) : Bool :=
  match o with
  | .error (.apiError s _) => s == n
  | _ => false

/-- The single HTTP request a call issues: method, full URL, and for POST
the payload handed to `json.dumps` (serialization itself is a standard
library concern, out of scope). -/
structure HttpRequest where
  method : String
  url : String
  payload : Option Json

/-- One `_LOGGER.error` record as emitted on a failed request: the
command, the status code, the reason, and `json_response.get("status",
"")`. -/
structure LogRecord where
  command : String
  status : Nat
  reason : String
  statusMessage : Json

/-- Result of a GET call: the request issued, the returned value or
raised error, and the log records emitted. -/
structure GetOutcome where
  request : HttpRequest
  result : Except ReqError Json
  log : List LogRecord

/-- Result of a POST call (the source returns `None` on success). -/
structure PostOutcome where
  request : HttpRequest
  result : Except ReqError Unit
  log : List LogRecord

/-- Python `str.replace(pat, rep)` on character lists: scan left to
right, replacing non-overlapping occurrences of `pat` (assumed nonempty,
as in the source) by `rep`. -/
def pyReplace (pat rep : List Char) : List Char → List Char
  | [] => []
  | c :: cs =>
    if pat ≠ [] ∧ pat.isPrefixOf (c :: cs) then
      rep ++ pyReplace pat rep (cs.drop (pat.length - 1))
    else
      c :: pyReplace pat rep cs
termination_by l => l.length
decreasing_by
  · simp only [List.length_cons]
    have := List.length_drop (pat.length - 1) cs
    omega
  · simp [List.length_cons]

/-- Whitespace as stripped by Python `str.strip()` (restricted to the
ASCII whitespace of `Char.isWhitespace`; the addresses involved are
plain host strings). -/
def isSpace (c : Char) : Bool :=
  c.isWhitespace

/-- Python `str.strip()`: remove leading and trailing whitespace. -/
def pyStrip (l : List Char) : List Char :=
  List.rdropWhile isSpace (List.dropWhile isSpace l)

/-- The characters of the literal `"http://"`. -/
def httpSchemeChars : List Char :=
  ['h', 't', 't', 'p', ':', '/', '/']

/-- The address normalization from `Mill.__init__`:
`device_ip.replace("http://", "").replace("/", "").strip()`. -/
def normalizeList (l : List Char) : List Char :=
  pyStrip (pyReplace ['/'] [] (pyReplace httpSchemeChars [] l))

/-- String-level wrapper of `normalizeList`. -/
def normalizeAddress (s : String) : String :=
  ⟨normalizeList s.data⟩

/-- The `Mill` data handler: normalized device address, base URL, timeout
seconds, and the cached status snapshot `_status` (initially the empty
dict).  The shared HTTP session is supplied by the caller and carries no
state of its own, so it is not modelled as a field. -/
structure Mill where
  device_ip : String
  url : String
  _timeout_seconds : Nat
  _status : Json

/-- Constructor `Mill.__init__(device_ip, websession, timeout_seconds)`:
normalizes the address, builds the base URL, and starts with an empty
status dict. -/
def Mill.init (device_ip : String) (timeout_seconds : Nat) : Mill :=
  { device_ip := normalizeAddress device_ip
    url := "http://" ++ normalizeAddress device_ip
    _timeout_seconds := timeout_seconds
    _status := Json.obj [] }

/-- Default value of the `timeout_seconds` argument. -/
def defaultTimeoutSeconds : Nat := 15

/-- Property `version`: `self._status.get("version", "")`. -/
def Mill.version (m : Mill) : Json :=
  m._status.getD "version" (Json.str "")

/-- Property `name`: `self._status.get("name", "")`. -/
def Mill.name (m : Mill) : Json :=
  m._status.getD "name" (Json.str "")

/-- Property `mac_address`: `self._status.get("mac_address")`. -/
def Mill.mac_address (m : Mill) : Option Json :=
  m._status.get? "mac_address"

/-- Method `_get_request(command)` applied to the HTTP response `r` the
device sends back: decode the body (a decode error propagates), replace a
`None` decode by the sentinel envelope, then `raise_for_status()` —
aiohttp raises exactly when `status >= 400` — returning the decoded body
on success and logging and re-raising the response error on failure. -/
def Mill._get_request (m : Mill) (command : String) (r : HttpResponse) : GetOutcome :=
  let req : HttpRequest := { method := "GET", url := m.url ++ "/" ++ command, payload := none }
  match responseJson r.body with
  | .error _ => { request := req, result := .error .parseError, log := [] }
  | .ok parsed =>
    let json_response := jsonOrSentinel parsed
    if 400 ≤ r.status then
      { request := req
        result := .error (.apiError r.status r.reason)
        log := [{ command := command, status := r.status, reason := r.reason,
                  statusMessage := json_response.getD "status" (Json.str "") }] }
    else
      { request := req, result := .ok json_response, log := [] }

/-- Method `_post_request(command, payload)` applied to the HTTP response
`r`: same decoding, guard and `raise_for_status()` steps as
`_get_request`, but the payload is sent as the request body and the
method returns `None` on success. -/
def Mill._post_request (m : Mill) (command : String) (payload : Json) (r : HttpResponse) :
    PostOutcome :=
  let req : HttpRequest :=
    { method := "POST", url := m.url ++ "/" ++ command, payload := some payload }
  match responseJson r.body with
  | .error _ => { request := req, result := .error .parseError, log := [] }
  | .ok parsed =>
    let json_response := jsonOrSentinel parsed
    if 400 ≤ r.status then
      { request := req
        result := .error (.apiError r.status r.reason)
        log := [{ command := command, status := r.status, reason := r.reason,
                  statusMessage := json_response.getD "status" (Json.str "") }] }
    else
      { request := req, result := .ok (), log := [] }

/-- Method `get_status()`: `self._status = await self._get_request("status");
return self._status`.  When the request raises, the assignment is never
reached and the cached snapshot is untouched; on success the cache is
assigned the full returned mapping. -/
def Mill.get_status (m : Mill) (r : HttpResponse) : GetOutcome × Mill :=
  (m._get_request "status" r,
   match (m._get_request "status" r).result with
   | .ok j => { m with _status := j }
   | .error _ => m)

/-- Method `connect()`: delegates to `get_status()`. -/
def Mill.connect (m : Mill) (r : HttpResponse) : GetOutcome × Mill :=
  m.get_status r

/-- Method `fetch_heater_and_sensor_data()`: GET `control-status`,
returning the raw mapping; the cached snapshot is not involved (the
return type carries no `Mill`). -/
def Mill.fetch_heater_and_sensor_data (m : Mill) (r : HttpResponse) : GetOutcome :=
  m._get_request "control-status" r

/-- Method `set_target_temperature(value)`: POST `set-temperature` with
payload `\x7b"type": "Normal", "value": value\x7d`. -/
def Mill.set_target_temperature (m : Mill) (target_temperature : Rat) (r : HttpResponse) :
    PostOutcome :=
  m._post_request "set-temperature"
    (Json.obj [("type", Json.str "Normal"), ("value", Json.num target_temperature)]) r

/-- Heater operation modes with their wire strings. -/
inductive OperationMode where
  | CONTROL_INDIVIDUALLY
  | OFF
  | WEEKLY_PROGRAM
  | INDEPENDENT_DEVICE

/-- Wire string of each operation mode (the enum member values). -/
def OperationMode.value : OperationMode → String
  | .CONTROL_INDIVIDUALLY => "Control individually"
  | .OFF => "OFF"
  | .WEEKLY_PROGRAM => "Weekly program"
  | .INDEPENDENT_DEVICE => "Independent device"

/-- Method `_set_operation_mode(mode)`: POST `operation-mode` with
payload `\x7b"mode": mode.value\x7d`. -/
def Mill._set_operation_mode (m : Mill) (mode : OperationMode) (r : HttpResponse) :
    PostOutcome :=
  m._post_request "operation-mode" (Json.obj [("mode", Json.str mode.value)]) r

/-- Convenience wrapper `set_operation_mode_control_individually()`. -/
def Mill.set_operation_mode_control_individually (m : Mill) (r : HttpResponse) : PostOutcome :=
  m._set_operation_mode OperationMode.CONTROL_INDIVIDUALLY r

/-- Convenience wrapper `set_operation_mode_off()`. -/
def Mill.set_operation_mode_off (m : Mill) (r : HttpResponse) : PostOutcome :=
  m._set_operation_mode OperationMode.OFF r

/-- Modelled from the spec: the `OilHeaterPowerLevels` enumeration is
imported by the tests but its defining module is not among the sources;
the spec names it a closed enumeration of power settings with fixed
numeric wire values, of which only `HIGH` is named by spec and tests. -/
inductive OilHeaterPowerLevels where
  | HIGH

/-- Modelled from the spec: the wire value of a power level
(`level.value` in the tests); a device-defined percentage. -/
def OilHeaterPowerLevels.value : OilHeaterPowerLevels → Json
  | .HIGH => Json.num 100

/-- Modelled from the spec: the `MillOilHeater` client variant, imported
by the tests but not among the sources; it extends the base client with
the oil-heater power operations. -/
structure MillOilHeater extends Mill

/-- Modelled from the spec: `set_heater_power(level)` issues POST
`oil-heater-power` with payload
`\x7b"heating_level_percentage": level.value\x7d`, through the same
request layer as the base client. -/
def MillOilHeater.set_heater_power (m : MillOilHeater) (level : OilHeaterPowerLevels)
    (r : HttpResponse) : PostOutcome :=
  m.toMill._post_request "oil-heater-power"
    (Json.obj [("heating_level_percentage", level.value)]) r

/-- Modelled from the spec: `fetch_heater_power_data()` issues GET
`oil-heater-power` and returns the raw mapping without caching it (the
return type carries no `Mill`). -/
def MillOilHeater.fetch_heater_power_data (m : MillOilHeater) (r : HttpResponse) : GetOutcome :=
  m.toMill._get_request "oil-heater-power" r

/-- Does an outcome return a value (as opposed to raising)? -/
def returnsValue {α : Type} (o : Except ReqError α) : Bool :=
  match o with
  | .ok _ => true
  | .error _ => false

/-! Concrete fixtures mirroring the test suite: the device address used
throughout the tests, the 6-key `status` fixture, and various mocked
responses. -/

/-- The client the tests construct: address `192.168.2.123`, default
timeout. -/
def cexMill : Mill :=
  Mill.init "192.168.2.123" defaultTimeoutSeconds

/-- Field list of the mocked `GET /status` success body (6 keys). -/
def okStatusFields : List (String × Json) :=
  [("name", Json.str "Mill panel"),
   ("version", Json.str "0x221017"),
   ("operation_key", Json.str ""),
   ("mac_address", Json.str "13:37:A6:5E:D3:CB"),
   ("switch_server", Json.num 0),
   ("status", Json.str "ok")]

/-- The mocked `GET /status` success body. -/
def okStatusBody : Json :=
  Json.obj okStatusFields

/-- A 200 response carrying the status fixture body. -/
def okStatusResp : HttpResponse :=
  { status := 200, reason := "OK", body := some (.json okStatusBody) }

/-- A 200 response carrying the minimal success envelope. -/
def okEnvelopeResp : HttpResponse :=
  { status := 200, reason := "OK", body := some (.json (Json.obj [("status", Json.str "ok")])) }

/-- A 200 response whose body reports a non-ok device status. -/
def errEnvelopeBody : Json :=
  Json.obj [("status", Json.str "error"), ("name", Json.str "Mill panel")]

/-- The 200/non-ok-envelope response. -/
def errEnvelopeResp : HttpResponse :=
  { status := 200, reason := "OK", body := some (.json errEnvelopeBody) }

/-- A 304 response carrying a success envelope. -/
def notModifiedResp : HttpResponse :=
  { status := 304, reason := "Not Modified", body := some (.json (Json.obj [("status", Json.str "ok")])) }

/-- A 400 response whose body is not valid JSON. -/
def badJson400Resp : HttpResponse :=
  { status := 400, reason := "Bad Request", body := some (.malformed "not valid json") }

/-- A 200 response whose body is not valid JSON. -/
def badJson200Resp : HttpResponse :=
  { status := 200, reason := "OK", body := some (.malformed "not valid json") }

/-- A 400 response with the device-reported error text of the tests. -/
def deviceText400Resp : HttpResponse :=
  { status := 400, reason := "Bad Request",
    body := some (.json (Json.obj [("status", Json.str "Failed to parse message body")])) }

/-- A 400 response with an empty body. -/
def emptyBody400Resp : HttpResponse :=
  { status := 400, reason := "Bad Request", body := none }

/-- A 500 response with an empty body. -/
def emptyBody500Resp : HttpResponse :=
  { status := 500, reason := "Internal Server Error", body := none }

/-- A 200 response with an empty body. -/
def emptyBody200Resp : HttpResponse :=
  { status := 200, reason := "OK", body := none }

/-! Helper lemmas about the normalization primitives. -/

/-- The head of a `dropWhile p` result never satisfies `p`. -/
theorem dropWhile_head?_false {α : Type} {p : α → Bool} {l : List α} {c : α}
    (h : (l.dropWhile p).head? = some c) : p c = false := by
  induction l with
  | nil => simp [List.dropWhile] at h
  | cons a as ih =>
    rw [List.dropWhile_cons] at h
    by_cases hp : p a
    · rw [if_pos hp] at h
      exact ih h
    · rw [if_neg hp] at h
      simp only [List.head?_cons, Option.some.injEq] at h
      subst h
      exact Bool.eq_false_iff.mpr hp

/-- Membership transfers along a prefix: every element of a prefix of
`l` is an element of `l`. -/
theorem mem_of_isPrefixOf {c : Char} {p l : List Char} (hc : c ∈ p)
    (hp : p.isPrefixOf l = true) : c ∈ l := by
  induction p generalizing l with
  | nil => cases hc
  | cons x xs ih =>
    cases l with
    | nil => simp [List.isPrefixOf] at hp
    | cons y ys =>
      simp only [List.isPrefixOf, Bool.and_eq_true, beq_iff_eq] at hp
      rcases List.mem_cons.mp hc with rfl | hmem
      · exact List.mem_cons.mpr (Or.inl hp.1)
      · exact List.mem_cons.mpr (Or.inr (ih hmem hp.2))

/-- Replacing a pattern that contains a character absent from the list
leaves the list unchanged. -/
theorem pyReplace_eq_self_of_not_mem (c : Char) {pat : List Char} (hc : c ∈ pat)
    (rep : List Char) : ∀ l : List Char, c ∉ l → pyReplace pat rep l = l := by
  intro l
  induction l with
  | nil => intro _; simp [pyReplace]
  | cons a as ih =>
    intro hnot
    rw [pyReplace]
    have hcond : ¬(pat ≠ [] ∧ pat.isPrefixOf (a :: as)) := by
      rintro ⟨-, hpre⟩
      exact hnot (mem_of_isPrefixOf hc hpre)
    rw [if_neg hcond]
    rw [ih (fun hmem => hnot (List.mem_cons.mpr (Or.inr hmem)))]

/-- Replacing a single character by the empty string removes every
occurrence of that character. -/
theorem pyReplace_single_not_mem (c : Char) : ∀ l : List Char, c ∉ pyReplace [c] [] l := by
  intro l
  induction l with
  | nil => simp [pyReplace]
  | cons a as ih =>
    rw [pyReplace]
    by_cases hac : a = c
    · subst hac
      have hcond : ([a] ≠ [] ∧ List.isPrefixOf [a] (a :: as)) := by
        refine ⟨by simp, ?_⟩
        simp [List.isPrefixOf]
      rw [if_pos hcond]
      simpa using ih
    · have hcond : ¬([c] ≠ [] ∧ List.isPrefixOf [c] (a :: as)) := by
        rintro ⟨-, hpre⟩
        simp only [List.isPrefixOf, Bool.and_eq_true, beq_iff_eq] at hpre
        exact hac hpre.1.symm
      rw [if_neg hcond]
      intro hmem
      rcases List.mem_cons.mp hmem with rfl | hmem
      · exact hac rfl
      · exact ih hmem

/-- Elements of the stripped list are elements of the original list. -/
theorem mem_of_mem_pyStrip {c : Char} {l : List Char} (h : c ∈ pyStrip l) : c ∈ l := by
  unfold pyStrip at h
  have h1 : c ∈ List.dropWhile isSpace l :=
    (List.rdropWhile_prefix isSpace (List.dropWhile isSpace l)).sublist.mem h
  exact (List.dropWhile_suffix isSpace).sublist.mem h1

/-- Stripping is idempotent. -/
theorem pyStrip_idem (l : List Char) : pyStrip (pyStrip l) = pyStrip l := by
  unfold pyStrip
  have h1 : List.dropWhile isSpace (List.rdropWhile isSpace (List.dropWhile isSpace l)) =
      List.rdropWhile isSpace (List.dropWhile isSpace l) := by
    cases hm : List.rdropWhile isSpace (List.dropWhile isSpace l) with
    | nil => simp
    | cons x xs =>
      obtain ⟨t, ht⟩ := List.rdropWhile_prefix isSpace (List.dropWhile isSpace l)
      rw [hm] at ht
      have hx : (List.dropWhile isSpace l).head? = some x := by
        rw [← ht]; rfl
      have hxf : isSpace x = false := dropWhile_head?_false hx
      rw [List.dropWhile_cons, if_neg (by simp [hxf])]
  rw [h1, List.rdropWhile_idempotent]

/-- The head of a stripped list is not whitespace. -/
theorem pyStrip_head?_not_space {l : List Char} {c : Char}
    (h : (pyStrip l).head? = some c) : isSpace c = false := by
  unfold pyStrip at h
  cases hm : List.rdropWhile isSpace (List.dropWhile isSpace l) with
  | nil => rw [hm] at h; simp at h
  | cons x xs =>
    rw [hm] at h
    simp only [List.head?_cons, Option.some.injEq] at h
    subst h
    obtain ⟨t, ht⟩ := List.rdropWhile_prefix isSpace (List.dropWhile isSpace l)
    rw [hm] at ht
    have hx : (List.dropWhile isSpace l).head? = some x := by
      rw [← ht]; rfl
    exact dropWhile_head?_false hx

/-- The last element of a stripped list is not whitespace. -/
theorem pyStrip_getLast?_not_space {l : List Char} {c : Char}
    (h : (pyStrip l).getLast? = some c) : isSpace c = false := by
  unfold pyStrip List.rdropWhile at h
  rw [List.getLast?_reverse] at h
  exact dropWhile_head?_false h

/-- The normalized address contains no slash. -/
theorem normalize_no_slash (l : List Char) : '/' ∉ normalizeList l := by
  intro h
  exact pyReplace_single_not_mem '/' _ (mem_of_mem_pyStrip h)

/-- Normalizing twice is the same as normalizing once (list level). -/
theorem normalizeList_idem (l : List Char) : normalizeList (normalizeList l) = normalizeList l := by
  have hs := normalize_no_slash l
  show pyStrip (pyReplace ['/'] [] (pyReplace httpSchemeChars [] (normalizeList l))) =
    normalizeList l
  rw [pyReplace_eq_self_of_not_mem '/' (by simp [httpSchemeChars]) [] _ hs]
  rw [pyReplace_eq_self_of_not_mem '/' (by simp) [] _ hs]
  exact pyStrip_idem _

/-- Claim C9: device-address normalization is idempotent — for every
string `s`, normalizing the result of normalizing `s` yields the same
value as normalizing `s` once. -/
theorem c9_normalization_idempotent (s : String) :
    normalizeAddress (normalizeAddress s) = normalizeAddress s := by
  unfold normalizeAddress
  exact congrArg String.mk (normalizeList_idem s.data)

/-- Claim C10: after construction with any input address, the stored
device address contains no slash at all and no leading or trailing
whitespace, the base URL equals `"http://"` concatenated with the stored
address, and no client operation mutates either afterwards (`get_status`
— the only operation whose result carries a client state — preserves
both fields on every response). -/
theorem c10_address_invariants (s : String) (t : Nat) (m : Mill) (r : HttpResponse) :
    ((Mill.init s t).device_ip.data.all fun c => !(c == '/')) = true ∧
    ((Mill.init s t).device_ip.data.head?.all fun c => !isSpace c) = true ∧
    ((Mill.init s t).device_ip.data.getLast?.all fun c => !isSpace c) = true ∧
    (Mill.init s t).url = "http://" ++ (Mill.init s t).device_ip ∧
    (m.get_status r).2.device_ip = m.device_ip ∧
    (m.get_status r).2.url = m.url := by
  have hdata : (Mill.init s t).device_ip.data = normalizeList s.data := rfl
  refine ⟨?_, ?_, ?_, rfl, ?_, ?_⟩
  · rw [hdata, List.all_eq_true]
    intro c hc
    have hne : c ≠ '/' := fun e => normalize_no_slash s.data (e ▸ hc)
    simp [hne]
  · rw [hdata]
    cases hh : (normalizeList s.data).head? with
    | none => rfl
    | some c =>
      have hh2 : (pyStrip (pyReplace ['/'] []
          (pyReplace httpSchemeChars [] s.data))).head? = some c := hh
      have hf : isSpace c = false := pyStrip_head?_not_space hh2
      simp [hf]
  · rw [hdata]
    cases hh : (normalizeList s.data).getLast? with
    | none => rfl
    | some c =>
      have hh2 : (pyStrip (pyReplace ['/'] []
          (pyReplace httpSchemeChars [] s.data))).getLast? = some c := hh
      have hf : isSpace c = false := pyStrip_getLast?_not_space hh2
      simp [hf]
  · unfold Mill.get_status
    cases (m._get_request "status" r).result <;> rfl
  · unfold Mill.get_status
    cases (m._get_request "status" r).result <;> rfl

/-- Helper: a successful request makes `get_status` assign exactly the
returned mapping to the cache, all other fields untouched. -/
theorem get_status_state_ok {m : Mill} {r : HttpResponse} {j : Json}
    (h : (m._get_request "status" r).result = .ok j) :
    (m.get_status r).2 = { m with _status := j } := by
  unfold Mill.get_status
  simp only [h]

/-- Helper: a raising request leaves the client state untouched. -/
theorem get_status_state_error {m : Mill} {r : HttpResponse} {e : ReqError}
    (h : (m._get_request "status" r).result = .error e) :
    (m.get_status r).2 = m := by
  unfold Mill.get_status
  simp only [h]

/-- Claim C3: the cached snapshot is left unchanged by every failing
`get_status`/`connect` call (no Connected-to-Unconnected transition: the
error is raised instead of clearing state) and is replaced wholesale by
every successful one — the full returned mapping is assigned, never a
field-by-field merge; `connect` delegates to `get_status`, and no other
operation result even carries a client state. -/
theorem c3_cache_wholesale_or_untouched (m : Mill) (r : HttpResponse) :
    (∀ e : ReqError, (m.get_status r).1.result = .error e → (m.get_status r).2 = m) ∧
    (∀ j : Json, (m.get_status r).1.result = .ok j →
      (m.get_status r).2 = { m with _status := j }) ∧
    m.connect r = m.get_status r := by
  refine ⟨fun e he => ?_, fun j hj => ?_, rfl⟩
  · exact get_status_state_error he
  · exact get_status_state_ok hj

/-- Witness for C3: on the mocked 200 status fixture, the cache becomes
exactly the returned 6-key mapping. -/
theorem c3_witness :
    (cexMill.get_status okStatusResp).2 = { cexMill with _status := okStatusBody } :=
  (c3_cache_wholesale_or_untouched cexMill okStatusResp).2.1 okStatusBody rfl

/-- Claim C5: the derived attributes are pure lookups into the cached
snapshot under keys `version`, `name` and `mac_address` with defaults
empty string, empty string and `none`; a freshly constructed client
(no successful `get_status` yet) reports exactly those defaults. -/
theorem c5_derived_attributes (s : String) (t : Nat) :
    (∀ (m : Mill) (fields : List (String × Json)), m._status = Json.obj fields →
      (m.version = (fields.lookup "version").getD (Json.str "") ∧
       m.name = (fields.lookup "name").getD (Json.str "") ∧
       m.mac_address = fields.lookup "mac_address")) ∧
    (Mill.init s t).version = Json.str "" ∧
    (Mill.init s t).name = Json.str "" ∧
    (Mill.init s t).mac_address = none := by
  refine ⟨fun m fields h => ?_, rfl, rfl, rfl⟩
  unfold Mill.version Mill.name Mill.mac_address Json.getD Json.get?
  rw [h]
  exact ⟨rfl, rfl, rfl⟩

/-- Witness for C5: with the status fixture cached, the attributes read
the fixture values. -/
theorem c5_witness :
    ({ cexMill with _status := Json.obj okStatusFields } : Mill).version =
      Json.str "0x221017" ∧
    ({ cexMill with _status := Json.obj okStatusFields } : Mill).name =
      Json.str "Mill panel" ∧
    ({ cexMill with _status := Json.obj okStatusFields } : Mill).mac_address =
      some (Json.str "13:37:A6:5E:D3:CB") := by
  have h := (c5_derived_attributes "192.168.2.123" defaultTimeoutSeconds).1
    { cexMill with _status := Json.obj okStatusFields } okStatusFields rfl
  exact ⟨h.1.trans rfl, h.2.1.trans rfl, h.2.2.trans rfl⟩

/-- Claim C7: `set_target_temperature(v)` issues exactly one POST — the
outcome records the single request made — to the set-temperature
endpoint with payload `\x7b"type": "Normal", "value": v\x7d`, and on a
2xx response carrying the `ok` envelope it returns `None` without
raising. -/
theorem c7_set_target_temperature (m : Mill) (v : Rat) (r : HttpResponse)
    (hlo : 200 ≤ r.status) (hhi : r.status ≤ 299)
    (hbody : responseJson r.body = .ok (some (Json.obj [("status", Json.str "ok")]))) :
    (m.set_target_temperature v r).request =
      { method := "POST", url := m.url ++ "/" ++ "set-temperature",
        payload := some (Json.obj [("type", Json.str "Normal"), ("value", Json.num v)]) } ∧
    (m.set_target_temperature v r).result = Except.ok () := by
  unfold Mill.set_target_temperature Mill._post_request
  simp only [hbody]
  rw [if_neg (by omega : ¬ 400 ≤ r.status)]
  exact ⟨rfl, rfl⟩

/-- Witness for C7: the test scenario — 20.5 degrees against a mocked
200 `ok` response. -/
theorem c7_witness :
    (cexMill.set_target_temperature (20.5 : Rat) okEnvelopeResp).request =
      { method := "POST", url := cexMill.url ++ "/" ++ "set-temperature",
        payload := some (Json.obj [("type", Json.str "Normal"),
                                   ("value", Json.num (20.5 : Rat))]) } ∧
    (cexMill.set_target_temperature (20.5 : Rat) okEnvelopeResp).result = Except.ok () :=
  c7_set_target_temperature cexMill (20.5 : Rat) okEnvelopeResp (by decide) (by decide) rfl

/-- Claim C8: the oil-heater client variant offers `set_heater_power`,
posting `oil-heater-power` with payload
`\x7b"heating_level_percentage": level.value\x7d` and raising the API
error with status 400 on a mocked 400 response, and
`fetch_heater_power_data`, getting `oil-heater-power` and returning the
raw mapping (its result carries no client state, so nothing is cached). -/
theorem c8_oil_heater_operations (m : MillOilHeater) (level : OilHeaterPowerLevels)
    (r : HttpResponse) :
    (m.set_heater_power level r).request =
      { method := "POST", url := m.toMill.url ++ "/" ++ "oil-heater-power",
        payload := some (Json.obj [("heating_level_percentage", level.value)]) } ∧
    (r.status = 400 → parseOk r.body = true →
      (m.set_heater_power level r).result = .error (.apiError 400 r.reason)) ∧
    (m.fetch_heater_power_data r).request =
      { method := "GET", url := m.toMill.url ++ "/" ++ "oil-heater-power", payload := none } ∧
    (∀ j : Json, responseJson r.body = .ok (some j) → r.status < 400 →
      (m.fetch_heater_power_data r).result = .ok j) := by
  refine ⟨?_, fun h400 hparse => ?_, ?_, fun j hj hlt => ?_⟩
  · unfold MillOilHeater.set_heater_power Mill._post_request
    cases hb : responseJson r.body with
    | ok p => simp only [hb]; split <;> rfl
    | error e => simp only [hb]
  · unfold MillOilHeater.set_heater_power Mill._post_request
    unfold parseOk at hparse
    cases hb : responseJson r.body with
    | ok p =>
      simp only [hb]
      rw [if_pos (by omega : 400 ≤ r.status), h400]
    | error e => rw [hb] at hparse; simp at hparse
  · unfold MillOilHeater.fetch_heater_power_data Mill._get_request
    cases hb : responseJson r.body with
    | ok p => simp only [hb]; split <;> rfl
    | error e => simp only [hb]
  · unfold MillOilHeater.fetch_heater_power_data Mill._get_request
    simp only [hj]
    rw [if_neg (by omega : ¬ 400 ≤ r.status)]
    rfl

/-- Witness for C8: `set_heater_power(HIGH)` against the mocked 400
raises the API error with status 400. -/
theorem c8_witness :
    ((⟨cexMill⟩ : MillOilHeater).set_heater_power OilHeaterPowerLevels.HIGH
      emptyBody400Resp).result = Except.error (ReqError.apiError 400 "Bad Request") :=
  (c8_oil_heater_operations ⟨cexMill⟩ OilHeaterPowerLevels.HIGH emptyBody400Resp).2.1 rfl rfl

/-- Counterexample for C1: the code never consults the decoded body
status field, and success is not limited to [200,299] — a 200 response
whose body status is "error" is returned as a success by `get_status`
(so a successful `get_status` can return a mapping whose status field is
not "ok"), and a 304 response is also returned as a success. -/
theorem c1_counterexample :
    (cexMill.get_status errEnvelopeResp).1.result = Except.ok errEnvelopeBody ∧
    errEnvelopeBody.getD "status" (Json.str "") = Json.str "error" ∧
    (cexMill._get_request "status" notModifiedResp).result =
      Except.ok (Json.obj [("status", Json.str "ok")]) :=
  ⟨rfl, rfl, rfl⟩

/-- Claim C1 (amended): success of a request is decided solely by the
HTTP status. For every request whose body decodes (or is empty), the
call succeeds exactly when the status is below 400 — the decoded body is
returned (GET) or `None` (POST) regardless of the body status field —
and every status at or above 400 raises. -/
theorem c1_amended_success_iff_status_below_400
    (m : Mill) (command : String) (payload : Json) (r : HttpResponse) (parsed : Option Json)
    (h : responseJson r.body = .ok parsed) :
    (r.status < 400 →
      (m._get_request command r).result = .ok (jsonOrSentinel parsed) ∧
      (m._post_request command payload r).result = .ok ()) ∧
    (400 ≤ r.status →
      (m._get_request command r).result = .error (.apiError r.status r.reason) ∧
      (m._post_request command payload r).result = .error (.apiError r.status r.reason)) := by
  unfold Mill._get_request Mill._post_request
  simp only [h]
  constructor
  · intro hlt
    simp only [if_neg (by omega : ¬ 400 ≤ r.status)]
    exact ⟨by trivial, by trivial⟩
  · intro hge
    simp only [if_pos hge]
    exact ⟨by trivial, by trivial⟩

/-- Witness for C1 (amended): the 200 status fixture is returned on GET
and POST returns `None`. -/
theorem c1_witness :
    (cexMill._get_request "status" okStatusResp).result = Except.ok okStatusBody ∧
    (cexMill._post_request "set-temperature" (Json.obj []) okStatusResp).result =
      Except.ok () := by
  have h := c1_amended_success_iff_status_below_400 cexMill "status" (Json.obj [])
    okStatusResp (some okStatusBody) rfl
  exact h.1 (by decide)

/-- Counterexample for C2: a 400 response whose body is present but not
valid JSON makes the client raise the decode error from
`response.json()`, which runs before `raise_for_status()` — not an API
error carrying status 400, for GET and POST alike. -/
theorem c2_counterexample :
    raisesApiErrorWithStatus (cexMill._get_request "status" badJson400Resp).result 400 =
      false ∧
    (cexMill._get_request "status" badJson400Resp).result =
      Except.error ReqError.parseError ∧
    raisesApiErrorWithStatus
      (cexMill._post_request "operation-mode" (Json.obj [("mode", Json.str "OFF")])
        badJson400Resp).result 400 = false :=
  ⟨rfl, rfl, rfl⟩

/-- Claim C2 (amended): for every GET or POST whose response status is at
least 400 the failure is raised, never swallowed into a value return;
when the body moreover is absent or valid JSON, the raised error is the
response error carrying exactly that status code (a malformed body makes
the decode error propagate instead). -/
theorem c2_amended_raises_on_4xx_5xx (m : Mill) (command : String) (payload : Json)
    (r : HttpResponse) (h400 : 400 ≤ r.status) :
    (parseOk r.body = true →
      (m._get_request command r).result = .error (.apiError r.status r.reason) ∧
      (m._post_request command payload r).result = .error (.apiError r.status r.reason) ∧
      raisesApiErrorWithStatus (m._get_request command r).result r.status = true ∧
      raisesApiErrorWithStatus (m._post_request command payload r).result r.status = true) ∧
    returnsValue (m._get_request command r).result = false ∧
    returnsValue (m._post_request command payload r).result = false := by
  refine ⟨fun hp => ?_, ?_, ?_⟩
  · unfold parseOk at hp
    cases hb : responseJson r.body with
    | error e => rw [hb] at hp; simp at hp
    | ok p =>
      unfold Mill._get_request Mill._post_request
      simp only [hb, if_pos h400]
      refine ⟨by trivial, by trivial, ?_, ?_⟩ <;> simp [raisesApiErrorWithStatus]
  · unfold Mill._get_request
    cases hb : responseJson r.body with
    | error e => simp only [hb]; rfl
    | ok p => simp only [hb, if_pos h400]; rfl
  · unfold Mill._post_request
    cases hb : responseJson r.body with
    | error e => simp only [hb]; rfl
    | ok p => simp only [hb, if_pos h400]; rfl

/-- Witness for C2 (amended): the mocked 400-with-device-text response
raises the response error with status 400 and returns no value. -/
theorem c2_witness :
    (cexMill._get_request "status" deviceText400Resp).result =
      Except.error (ReqError.apiError 400 "Bad Request") ∧
    returnsValue (cexMill._get_request "status" deviceText400Resp).result = false := by
  have h := c2_amended_raises_on_4xx_5xx cexMill "status" (Json.obj [])
    deviceText400Resp (by decide)
  exact ⟨(h.1 rfl).1, h.2.1⟩

/-- Counterexample for C4: two failing responses that differ only in the
device-reported status text (one carries "Failed to parse message body",
the other has no body at all) raise the identical error value — so the
raised error cannot carry the device-reported status field; it carries
only the status code and reason, and the device text goes to the log. -/
theorem c4_counterexample :
    (cexMill._post_request "operation-mode" (Json.obj [("mode", Json.str "OFF")])
      deviceText400Resp).result = Except.error (ReqError.apiError 400 "Bad Request") ∧
    (cexMill._post_request "operation-mode" (Json.obj [("mode", Json.str "OFF")])
      emptyBody400Resp).result = Except.error (ReqError.apiError 400 "Bad Request") :=
  ⟨rfl, rfl⟩

/-- Claim C4 (amended): on every failing request with a decodable or
absent body, the raised error carries the HTTP status code and the
reason phrase, while the device-reported body status field (empty-string
fallback when absent) is carried by the log record emitted at raise
time, not by the error object. -/
theorem c4_amended_error_fields_and_log (m : Mill) (command : String) (payload : Json)
    (r : HttpResponse) (parsed : Option Json)
    (h400 : 400 ≤ r.status) (hp : responseJson r.body = .ok parsed) :
    (m._get_request command r).result = .error (.apiError r.status r.reason) ∧
    (m._get_request command r).log =
      [{ command := command, status := r.status, reason := r.reason,
         statusMessage := (jsonOrSentinel parsed).getD "status" (Json.str "") }] ∧
    (m._post_request command payload r).result = .error (.apiError r.status r.reason) ∧
    (m._post_request command payload r).log =
      [{ command := command, status := r.status, reason := r.reason,
         statusMessage := (jsonOrSentinel parsed).getD "status" (Json.str "") }] := by
  unfold Mill._get_request Mill._post_request
  simp only [hp, if_pos h400]
  exact ⟨by trivial, by trivial, by trivial, by trivial⟩

/-- Witness for C4 (amended): the log record of the mocked 400 carries
the status, the reason and the device text. -/
theorem c4_witness :
    (cexMill._get_request "status" deviceText400Resp).log =
      [{ command := "status", status := 400, reason := "Bad Request",
         statusMessage := Json.str "Failed to parse message body" }] := by
  have h := c4_amended_error_fields_and_log cexMill "status" (Json.obj [])
    deviceText400Resp
    (some (Json.obj [("status", Json.str "Failed to parse message body")])) (by decide) rfl
  exact h.2.1.trans rfl

/-- Counterexample for C6: a 200 response whose body is present but not
valid JSON is not replaced by the sentinel envelope — the decode failure
propagates to the caller instead of processing continuing. -/
theorem c6_counterexample :
    (cexMill._get_request "status" badJson200Resp).result =
      Except.error ReqError.parseError :=
  rfl

/-- Claim C6 (amended): the sentinel envelope is substituted exactly
when `response.json()` yields `None` — an empty body, or a body decoding
to JSON null — and processing then continues for every HTTP status (the
sentinel is returned on success and supplies the empty log text on
failure); a body that fails to decode raises a decode error that
propagates, for GET and POST alike. -/
theorem c6_amended_sentinel_only_when_none (m : Mill) (command : String) (payload : Json)
    (r : HttpResponse) :
    (responseJson r.body = .ok none →
      (r.status < 400 → (m._get_request command r).result = .ok sentinelEnvelope) ∧
      (400 ≤ r.status →
        (m._get_request command r).log =
          [{ command := command, status := r.status, reason := r.reason,
             statusMessage := Json.str "" }] ∧
        (m._post_request command payload r).log =
          [{ command := command, status := r.status, reason := r.reason,
             statusMessage := Json.str "" }])) ∧
    (∀ raw : String, r.body = some (.malformed raw) →
      (m._get_request command r).result = Except.error ReqError.parseError ∧
      (m._post_request command payload r).result = Except.error ReqError.parseError) := by
  constructor
  · intro hnone
    unfold Mill._get_request Mill._post_request
    simp only [hnone]
    constructor
    · intro hlt
      simp only [if_neg (by omega : ¬ 400 ≤ r.status)]
      rfl
    · intro hge
      simp only [if_pos hge]
      exact ⟨by trivial, by trivial⟩
  · intro raw hraw
    unfold Mill._get_request Mill._post_request
    rw [hraw]
    exact ⟨rfl, rfl⟩

/-- Witness for C6 (amended): an empty 200 body yields the sentinel
envelope as the returned value. -/
theorem c6_witness :
    (cexMill._get_request "status" emptyBody200Resp).result =
      Except.ok sentinelEnvelope := by
  have h := c6_amended_sentinel_only_when_none cexMill "status" (Json.obj []) emptyBody200Resp
  exact (h.1 rfl).1 (by decide)

end MillLocal
